import Mathlib

/-!
Shallow embedding of the phoebe.server session broker
(`phoebe_server/manager/session_manager.py`, `phoebe_server/database.py`,
`phoebe_server/api/session.py`, `phoebe_server/api/command.py`,
`phoebe_server/worker/phoebe_worker.py`) together with theorems settling
the specification claims about it.

Modelling conventions:
* wall-clock timestamps (Python floats) are abstract `Nat` ticks;
* memory figures (MiB floats) are `Nat`;
* the SQLite tables are Lean lists of row structures; a storage-layer
  exception is an oracle flag `fail : Bool` given to each store
  operation, mirroring the `try`/`except` in `database.py`;
* the worker process handle is `Option Bool` (`some r` = a process whose
  `is_running()` returns `r`; `none` = no handle), and psutil outcomes
  (readiness probe, `memory_info`) are oracle parameters;
* side effects that the claims order or count are recorded in a trace of
  `Ev` events emitted in the statement order of the Python source.
-/

namespace PhoebeServer

/-! ## Port pool (`session_manager.py` lines 14-71, 292-304) -/

/-- The two module-level port-pool containers, `available_ports : list[int]`
(FIFO queue) and `reserved_ports : set`. -/
structure Pool where
  available : List Nat
  reserved : Finset Nat
deriving DecidableEq

/-- `load_port_config`: `available_ports = list(range(start, end))`,
`reserved_ports` empty. -/
def initPool (start stop : Nat) : Pool :=
  { available := List.range' start (stop - start), reserved := ∅ }

/-- `request_port`: raise when the queue is empty, else pop the head of
`available_ports` and add it to `reserved_ports`. -/
def request_port (s : Pool) : Except String (Nat × Pool) :=
  match s.available with
  | [] => .error "No available ports in pool"
  | p :: rest => .ok (p, { available := rest, reserved := insert p s.reserved })

/-- `release_port`: if the port is reserved, move it from `reserved_ports`
to the tail of `available_ports`; otherwise do nothing. -/
def release_port (p : Nat) (s : Pool) : Pool :=
  if p ∈ s.reserved then
    { available := s.available ++ [p], reserved := s.reserved.erase p }
  else s

/-- The dictionary returned by `get_port_status` (the `port_range` string is
rendered from the configured bounds). -/
structure PortStatus where
  total_ports : Nat
  reserved_count : Nat
  available_count : Nat
  reserved_port_list : List Nat
  port_range : String
deriving DecidableEq, Repr

/-- `get_port_status`: `total_ports = len(available_ports) + len(reserved_ports)`,
counts of each partition, the sorted reserved list and the range string. -/
def get_port_status (start stop : Nat) (s : Pool) : PortStatus :=
  { total_ports := s.available.length + s.reserved.card
    reserved_count := s.reserved.card
    available_count := s.available.length
    reserved_port_list := s.reserved.sort (· ≤ ·)
    port_range := toString start ++ "-" ++ toString (stop - 1) }

/-- One client-visible pool operation: an allocation attempt or a release. -/
inductive PoolOp where
  | request
  | release (p : Nat)
deriving DecidableEq, Repr

/-- Effect of one operation on the pool state; a failing `request_port`
raises before mutating anything, so the pool is left unchanged. -/
def stepPool (s : Pool) (op : PoolOp) : Pool :=
  match op with
  | .request =>
    match request_port s with
    | .ok (_, s') => s'
    | .error _ => s
  | .release p => release_port p s

/-- The pool state after a sequence of operations. -/
def runPool (start stop : Nat) (ops : List PoolOp) : Pool :=
  ops.foldl stepPool (initPool start stop)

/-- The pool-partition invariant: the FIFO queue holds no duplicates, the
two partitions are disjoint, and together they cover exactly the
configured half-open range. -/
def PoolInv (start stop : Nat) (s : Pool) : Prop :=
  s.available.Nodup ∧
  (∀ p ∈ s.available, p ∉ s.reserved) ∧
  (∀ p, (start ≤ p ∧ p < stop) ↔ (p ∈ s.available ∨ p ∈ s.reserved))

/-! ## Session store (`database.py`) -/

/-- A row of the `sessions` table. -/
structure SessionRow where
  session_id : String
  created_at : Nat
  destroyed_at : Option Nat
  last_activity : Nat
  port : Nat
  client_ip : Option String
  user_agent : Option String
  termination_reason : Option String
  status : String
deriving DecidableEq, Repr

/-- A row of the `session_metrics` table. -/
structure MetricRow where
  session_id : String
  timestamp : Nat
  memory_used_mb : Nat
deriving DecidableEq, Repr

/-- A row of the `session_commands` table (`success` stored as 0/1). -/
structure CommandRow where
  session_id : String
  timestamp : Nat
  command_name : String
  success : Nat
  execution_time_ms : Option Nat
  error_message : Option String
deriving DecidableEq, Repr

/-- A row of the `session_user_info` table. -/
structure UserInfoRow where
  session_id : String
  first_name : String
  last_name : String
  email : String
  updated_at : Nat
deriving DecidableEq, Repr

/-- The four tables of the SQLite store. -/
structure Store where
  sessions : List SessionRow
  session_metrics : List MetricRow
  session_commands : List CommandRow
  session_user_info : List UserInfoRow
deriving DecidableEq, Repr

/-- Python `str.split(sep)` for a one-character separator, on the
character list of the string (`"".split(",") == [""]`). -/
def splitOnChar (c : Char) : List Char → List (List Char)
  | [] => [[]]
  | x :: xs =>
    let r := splitOnChar c xs
    if x = c then [] :: r
    else
      match r with
      | [] => [[x]]
      | y :: ys => (x :: y) :: ys

/-- Python `str.split(sep)` with a one-character separator. -/
def pySplit (sep : Char) (s : String) : List String :=
  (splitOnChar sep s.data).map String.mk

/-- Python `str.strip()`: drop leading and trailing whitespace. -/
def pyStrip (s : String) : String :=
  String.mk (((s.data.dropWhile Char.isWhitespace).reverse.dropWhile
    Char.isWhitespace).reverse)

/-- `[c.strip() for c in s.split(",") if c.strip()]`: split a configured
comma-separated list, strip each entry, drop entries that strip to the
empty string. -/
def parseCmdList (s : String) : List String :=
  ((pySplit ',' s).map pyStrip).filter (· ≠ "")

/-- `should_log_command`: with the parsed `log_include_commands` /
`log_exclude_commands` configuration, if the include list is non-empty log
only its members, otherwise log everything not excluded. -/
def should_log_command (inc exc : String) (command_name : String) : Bool :=
  let exclude := parseCmdList exc
  let incl := parseCmdList inc
  if incl ≠ [] then incl.contains command_name
  else !(exclude.contains command_name)

/-- `log_session_created`: `INSERT` of a fresh `sessions` row with
`status='active'`, inside `try`/`except`.  A storage-layer exception
(`fail`) or a primary-key violation is logged and swallowed. -/
def log_session_created (fail : Bool) (session_id : String) (created_at : Nat)
    (port : Nat) (client_ip user_agent : Option String) (st : Store) :
    Store × List String :=
  if fail ∨ st.sessions.any (·.session_id = session_id) then
    (st, ["Failed to log session creation"])
  else
    ({ st with sessions := st.sessions ++
        [{ session_id := session_id, created_at := created_at,
           destroyed_at := none, last_activity := created_at, port := port,
           client_ip := client_ip, user_agent := user_agent,
           termination_reason := none, status := "active" }] }, [])

/-- `log_session_destroyed`: `UPDATE sessions SET destroyed_at, termination_reason,
status='terminated' WHERE session_id = ?`, inside `try`/`except`. -/
def log_session_destroyed (fail : Bool) (session_id : String)
    (destroyed_at : Nat) (termination_reason : String) (st : Store) :
    Store × List String :=
  if fail then (st, ["Failed to log session destruction"])
  else
    ({ st with sessions := st.sessions.map (fun r =>
        if r.session_id = session_id then
          { r with destroyed_at := some destroyed_at,
                   termination_reason := some termination_reason,
                   status := "terminated" }
        else r) }, [])

/-- `log_session_activity`: `UPDATE sessions SET last_activity WHERE
session_id = ?`, inside `try`/`except`. -/
def log_session_activity (fail : Bool) (session_id : String)
    (last_activity : Nat) (st : Store) : Store × List String :=
  if fail then (st, ["Failed to log session activity"])
  else
    ({ st with sessions := st.sessions.map (fun r =>
        if r.session_id = session_id then { r with last_activity := last_activity }
        else r) }, [])

/-- `log_session_metric`: append-only `INSERT` into `session_metrics`,
inside `try`/`except`. -/
def log_session_metric (fail : Bool) (session_id : String) (timestamp : Nat)
    (memory_used_mb : Nat) (st : Store) : Store × List String :=
  if fail then (st, ["Failed to log session metric"])
  else
    ({ st with session_metrics := st.session_metrics ++
        [{ session_id := session_id, timestamp := timestamp,
           memory_used_mb := memory_used_mb }] }, [])

/-- `log_command_execution`: return immediately when the command is
filtered out by `should_log_command`, else `INSERT` one `session_commands`
row (with `success` as 0/1), inside `try`/`except`. -/
def log_command_execution (fail : Bool) (inc exc : String)
    (session_id : String) (timestamp : Nat) (command_name : String)
    (success : Bool) (execution_time_ms : Option Nat)
    (error_message : Option String) (st : Store) : Store × List String :=
  if !should_log_command inc exc command_name then (st, [])
  else if fail then (st, ["Failed to log command execution"])
  else
    ({ st with session_commands := st.session_commands ++
        [{ session_id := session_id, timestamp := timestamp,
           command_name := command_name,
           success := if success then 1 else 0,
           execution_time_ms := execution_time_ms,
           error_message := error_message }] }, [])

/-- `log_user_info_update`: `INSERT OR REPLACE` into `session_user_info`
(upsert on the `session_id` primary key), inside `try`/`except`. -/
def log_user_info_update (fail : Bool) (session_id : String)
    (first_name last_name email : String) (updated_at : Nat) (st : Store) :
    Store × List String :=
  if fail then (st, ["Failed to log user info update"])
  else
    ({ st with session_user_info :=
        st.session_user_info.filter (·.session_id ≠ session_id) ++
        [{ session_id := session_id, first_name := first_name,
           last_name := last_name, email := email,
           updated_at := updated_at }] }, [])

/-! ## Session registry and lifecycle (`session_manager.py`) -/

/-- A `server_registry` value: the per-session dict built by
`launch_phoebe_worker` and mutated afterwards.  `process` models the
psutil handle: `some r` is a process whose `is_running()` returns `r`. -/
structure SessionInfo where
  session_id : String
  created_at : Nat
  last_activity : Nat
  mem_used : Nat
  port : Nat
  user_first_name : Option String
  user_last_name : Option String
  user_email : Option String
  user_display_name : String
  process : Option Bool
deriving DecidableEq, Repr

/-- The serializable projection `{k: v for k, v in info.items() if k != 'process'}`. -/
structure Snapshot where
  session_id : String
  created_at : Nat
  last_activity : Nat
  mem_used : Nat
  port : Nat
  user_first_name : Option String
  user_last_name : Option String
  user_email : Option String
  user_display_name : String
deriving DecidableEq, Repr

/-- Drop the `process` key from a registry entry. -/
def toSnapshot (i : SessionInfo) : Snapshot :=
  { session_id := i.session_id, created_at := i.created_at,
    last_activity := i.last_activity, mem_used := i.mem_used, port := i.port,
    user_first_name := i.user_first_name, user_last_name := i.user_last_name,
    user_email := i.user_email, user_display_name := i.user_display_name }

/-- The broker's module-level mutable state: `server_registry` (an
insertion-ordered dict, modelled as an association list with unique keys),
the port pool, the SQLite store, and the error log emitted so far. -/
structure ServerState where
  registry : List (String × SessionInfo)
  pool : Pool
  store : Store
  errlog : List String
deriving DecidableEq

/-- Thread a store-operation result into the broker state. -/
def withStore (st : ServerState) (r : Store × List String) : ServerState :=
  { st with store := r.1, errlog := st.errlog ++ r.2 }

/-- Python dict assignment `server_registry[sid] = info`: replace in place
when the key exists, append otherwise. -/
def regSet (sid : String) (info : SessionInfo)
    (reg : List (String × SessionInfo)) : List (String × SessionInfo) :=
  if reg.any (·.1 = sid) then
    reg.map (fun e => if e.1 = sid then (sid, info) else e)
  else reg ++ [(sid, info)]

/-- In-place mutation of a registry entry's fields. -/
def regUpdate (sid : String) (f : SessionInfo → SessionInfo)
    (reg : List (String × SessionInfo)) : List (String × SessionInfo) :=
  reg.map (fun e => if e.1 = sid then (e.1, f e.2) else e)

/-- Observable side effects, recorded in the statement order of the
Python source. -/
inductive Ev where
  | terminate (sid : String)
  | portRelease (p : Nat)
  | destroyed (sid : String) (reason : String)
  | registryRemove (sid : String)
  | activity (sid : String)
  | rpc (port : Nat)
deriving DecidableEq, Repr

/-- `launch_phoebe_worker`: allocate a port (`request_port` raises before
any other effect when the pool is empty), spawn the worker, probe
readiness (`ready` is the probe's outcome).  On probe failure the worker
is terminated, the port released, and the raised `RuntimeError` is
re-caught by the enclosing `except`, which releases the port a second
time and re-raises.  On success the registry entry is recorded, a
`created` row is written (`fail` is the store oracle), and the snapshot
is returned. -/
def launch_phoebe_worker (ready fail : Bool) (session_id : String)
    (now : Nat) (client_ip user_agent : Option String) (st : ServerState) :
    ServerState × Except String Snapshot :=
  match request_port st.pool with
  | .error e => (st, .error e)
  | .ok (port, pool1) =>
    if ready then
      let info : SessionInfo :=
        { session_id := session_id, created_at := now, last_activity := now,
          mem_used := 0, port := port, user_first_name := none,
          user_last_name := none, user_email := none,
          user_display_name := "Not logged in", process := some true }
      let st1 : ServerState :=
        { st with registry := regSet session_id info st.registry, pool := pool1 }
      let st2 := withStore st1
        (log_session_created fail session_id now port client_ip user_agent st1.store)
      (st2, .ok (toSnapshot info))
    else
      let pool2 := release_port port pool1
      let pool3 := release_port port pool2
      ({ st with pool := pool3 }, .error "Worker failed to start within timeout")

/-- `update_last_activity`: if the session is registered, stamp
`last_activity` in the registry and mirror it to the store. -/
def update_last_activity (session_id : String) (now : Nat) (fail : Bool)
    (st : ServerState) : ServerState :=
  match st.registry.lookup session_id with
  | none => st
  | some _ =>
    let reg1 := regUpdate session_id (fun i => { i with last_activity := now }) st.registry
    let st1 := { st with registry := reg1 }
    withStore st1 (log_session_activity fail session_id now st1.store)

/-- `get_server_info`: the registry entry without its `process` key. -/
def get_server_info (session_id : String) (st : ServerState) : Option Snapshot :=
  (st.registry.lookup session_id).map toSnapshot

/-- `get_current_memory_usage`: when the session is registered and holds a
process handle, sample its RSS (`memSample`; `none` models the
`NoSuchProcess` exception), record it in the registry, touch activity,
and append a `session_metrics` row. -/
def get_current_memory_usage (session_id : String) (memSample : Option Nat)
    (now : Nat) (failA failM : Bool) (st : ServerState) :
    Option Nat × ServerState :=
  match st.registry.lookup session_id with
  | none => (none, st)
  | some info =>
    match info.process with
    | none => (none, st)
    | some _ =>
      match memSample with
      | none => (none, st)
      | some mem =>
        let reg1 := regUpdate session_id (fun i => { i with mem_used := mem }) st.registry
        let st1 := { st with registry := reg1 }
        let st2 := update_last_activity session_id now failA st1
        let st3 := withStore st2 (log_session_metric failM session_id now mem st2.store)
        (some mem, st3)

/-- `shutdown_server`: `False` for an unknown session; otherwise terminate
the worker when it is still running, release the port (guarded by the
truthiness test `if port:`), write the `destroyed` update with the given
reason, and only then delete the registry entry.  The trace records the
effects in statement order. -/
def shutdown_server (session_id termination_reason : String) (now : Nat)
    (fail : Bool) (st : ServerState) : Bool × ServerState × List Ev :=
  match st.registry.lookup session_id with
  | none => (false, st, [])
  | some info =>
    let trTerm : List Ev :=
      match info.process with
      | some true => [.terminate session_id]
      | _ => []
    let pr : Pool × List Ev :=
      if info.port ≠ 0 then (release_port info.port st.pool, [.portRelease info.port])
      else (st.pool, [])
    let dbr := log_session_destroyed fail session_id now termination_reason st.store
    (true,
     { registry := st.registry.filter (fun e => e.1 ≠ session_id),
       pool := pr.1, store := dbr.1, errlog := st.errlog ++ dbr.2 },
     trTerm ++ pr.2 ++ [.destroyed session_id termination_reason,
                        .registryRemove session_id])

/-- The dead-session scan of `list_sessions`:
`proc and not proc.is_running()`. -/
def deadSessions (reg : List (String × SessionInfo)) : List String :=
  (reg.filter (fun e =>
    match e.2.process with
    | some false => true
    | _ => false)).map (·.1)

/-- The cleanup loop of `list_sessions`: `shutdown_server(session_id)` for
each collected dead session, with the *default* termination reason
`"manual"`. -/
def shutdownList (sids : List String) (now : Nat) (fail : Bool)
    (st : ServerState) : ServerState × List Ev :=
  sids.foldl (fun acc sid =>
    let r := shutdown_server sid "manual" now fail acc.1
    (r.2.1, acc.2 ++ r.2.2)) (st, [])

/-- `list_sessions`: collect the sessions whose worker process is not
running, shut each of them down, then return snapshots of the surviving
registry. -/
def list_sessions (now : Nat) (fail : Bool) (st : ServerState) :
    List (String × Snapshot) × ServerState × List Ev :=
  let r := shutdownList (deadSessions st.registry) now fail st
  (r.1.registry.map (fun e => (e.1, toSnapshot e.2)), r.1, r.2)

/-! ## HTTP facade (`api/session.py`, `api/command.py`) -/

/-- `get_client_ip`: first element of a present `X-Forwarded-For` header
(split on commas, stripped), else the direct peer address, else
`"unknown"`. -/
def get_client_ip (forwarded_for : Option String) (client_host : Option String) :
    String :=
  match forwarded_for with
  | some fwd => pyStrip ((pySplit ',' fwd).headD "")
  | none =>
    match client_host with
    | some h => h
    | none => "unknown"

/-- The broker-visible shape of a worker reply:
`response.get('success', False)` and `response.get('error')`. -/
structure Reply where
  success : Bool
  error : Option String
deriving DecidableEq, Repr

/-- The `/send/{session_id}` handler: 404 when the session id is not in
the registry, before any side effect; otherwise touch activity, route the
RPC (`reply` is the worker's verbatim response, `execMs` the measured
elapsed time), append the filtered `command` row, and sample memory. -/
def send (session_id : String) (cmdName : Option String) (reply : Reply)
    (now execMs : Nat) (memSample : Option Nat) (inc exc : String)
    (failA failCmd failM : Bool) (st : ServerState) :
    Except Nat Reply × ServerState × List Ev :=
  match get_server_info session_id st with
  | none => (.error 404, st, [])
  | some info =>
    let st1 := update_last_activity session_id now failA st
    let command_name := cmdName.getD "unknown"
    let error_message := if reply.success then none else reply.error
    let st2 := withStore st1
      (log_command_execution failCmd inc exc session_id now command_name
        reply.success (some execMs) error_message st1.store)
    let r3 := get_current_memory_usage session_id memSample now failA failM st2
    (.ok reply, r3.2, [.activity session_id, .rpc info.port])

/-! ## Worker command loop (`worker/phoebe_worker.py`) -/

/-- A JSON value on the worker wire. -/
inductive JVal where
  | null
  | bool (b : Bool)
  | num (n : Int)
  | str (s : String)
  | arr (xs : List JVal)
  | obj (fields : List (String × JVal))

/-- The keys of `self.commands` built in `PhoebeWorker.__init__`. -/
def workerCommands : List String :=
  ["ping", "get_parameter", "get_value", "set_value", "add_dataset",
   "remove_dataset", "run_compute", "run_solver", "get_bundle",
   "load_bundle", "save_bundle", "get_datasets", "get_uniqueid",
   "is_parameter_constrained", "attach_parameters"]

/-- Python `str()` of the scalar JSON values that can reach the
unrecognized-command f-string. -/
def jvalText : JVal → String
  | .null => "None"
  | .bool true => "True"
  | .bool false => "False"
  | .num n => toString n
  | .str s => s
  | .arr _ => "<list>"
  | .obj _ => "<dict>"

/-- `dict.pop(key)`: the value at the key and the remaining entries, or
`none` (a `KeyError`) when the key is absent. -/
def popField (key : String) : List (String × JVal) →
    Option (JVal × List (String × JVal))
  | [] => none
  | (k, v) :: rest =>
    if k = key then some (v, rest)
    else (popField key rest).map (fun r => (r.1, (k, v) :: r.2))

/-- Outcome of one iteration of `PhoebeWorker.run`: either a reply is
sent on the socket, or an exception escapes the loop body uncaught and
no reply is sent. -/
inductive StepResult where
  | reply (r : JVal)
  | raised (msg : String)

/-- One iteration of the `PhoebeWorker.run` loop over a received request
`args`.  A non-dict request raises `ValueError`; `args.pop('command')`
raises `KeyError` when the key is missing; an unhashable `command` value
makes the `in` test raise `TypeError`; an unrecognized command name is
answered with the error envelope; a recognized command runs the handler
(`engine` is the opaque engine oracle) inside `try`/`except`, answering
with the success or error envelope. -/
def workerStep (engine : String → List (String × JVal) → Except String JVal)
    (args : JVal) : StepResult :=
  match args with
  | .obj fields =>
    match popField "command" fields with
    | none => .raised "KeyError: command"
    | some (cmdVal, rest) =>
      match cmdVal with
      | .arr _ => .raised "TypeError: unhashable type"
      | .obj _ => .raised "TypeError: unhashable type"
      | other =>
        match other with
        | .str s =>
          if workerCommands.contains s then
            match engine s rest with
            | .ok result =>
              .reply (.obj [("success", .bool true), ("result", result)])
            | .error e =>
              .reply (.obj [("success", .bool false), ("error", .str e),
                            ("traceback", .str e)])
          else
            .reply (.obj [("success", .bool false),
              ("error", .str ("API does not recognize command " ++ s ++ "."))])
        | _ =>
          .reply (.obj [("success", .bool false),
            ("error", .str ("API does not recognize command " ++
              jvalText other ++ "."))])
  | _ => .raised "ValueError: API returned a non-dictionary value"

/-! ## Theorems -/

theorem poolInv_init (start stop : Nat) : PoolInv start stop (initPool start stop) := by
  refine ⟨List.nodup_range' _ _, ?_, ?_⟩
  · intro p _ hr
    simp [initPool] at hr
  · intro p
    simp only [initPool, List.mem_range'_1, Finset.not_mem_empty, or_false]
    omega

theorem poolInv_step (start stop : Nat) (s : Pool) (op : PoolOp)
    (h : PoolInv start stop s) : PoolInv start stop (stepPool s op) := by
  obtain ⟨hnd, hdisj, hcov⟩ := h
  cases op with
  | request =>
    cases hav : s.available with
    | nil =>
      simp only [stepPool, request_port, hav]
      exact ⟨hnd, hdisj, hcov⟩
    | cons p rest =>
      simp only [stepPool, request_port, hav]
      rw [hav] at hnd hdisj
      refine ⟨hnd.of_cons, ?_, ?_⟩
      · intro q hq hqr
        rcases Finset.mem_insert.mp hqr with hqp | hqr
        · exact (List.nodup_cons.mp hnd).1 (hqp ▸ hq)
        · exact hdisj q (List.mem_cons_of_mem p hq) hqr
      · intro q
        rw [hcov q, hav]
        simp only [List.mem_cons, Finset.mem_insert]
        tauto
  | release p =>
    simp only [stepPool, release_port]
    by_cases hp : p ∈ s.reserved
    · rw [if_pos hp]
      have hpav : p ∉ s.available := fun hmem => hdisj p hmem hp
      refine ⟨?_, ?_, ?_⟩
      · refine List.Nodup.append hnd (List.nodup_singleton p) ?_
        intro q hq hq1
        rw [List.mem_singleton] at hq1
        exact hpav (hq1 ▸ hq)
      · intro q hq hqr
        rw [Finset.mem_erase] at hqr
        rcases List.mem_append.mp hq with hq | hq
        · exact hdisj q hq hqr.2
        · rw [List.mem_singleton] at hq
          exact hqr.1 hq
      · intro q
        rw [hcov q]
        simp only [List.mem_append, List.mem_singleton, Finset.mem_erase]
        constructor
        · rintro (hq | hq)
          · exact Or.inl (Or.inl hq)
          · by_cases hqp : q = p
            · exact Or.inl (Or.inr hqp)
            · exact Or.inr ⟨hqp, hq⟩
        · rintro ((hq | hq) | ⟨hne, hq⟩)
          · exact Or.inl hq
          · exact Or.inr (hq ▸ hp)
          · exact Or.inr hq
    · rw [if_neg hp]
      exact ⟨hnd, hdisj, hcov⟩

theorem poolInv_run (start stop : Nat) (ops : List PoolOp) :
    PoolInv start stop (runPool start stop ops) := by
  rw [runPool]
  induction ops using List.reverseRecOn with
  | nil => exact poolInv_init start stop
  | append_singleton ops op ih =>
    rw [List.foldl_append, List.foldl_cons, List.foldl_nil]
    exact poolInv_step start stop _ op ih

theorem poolInv_count (start stop : Nat) (s : Pool) (h : PoolInv start stop s) :
    s.available.length + s.reserved.card = stop - start := by
  obtain ⟨hnd, hdisj, hcov⟩ := h
  have hdisj' : Disjoint s.available.toFinset s.reserved := by
    rw [Finset.disjoint_left]
    intro q hq
    exact hdisj q (List.mem_toFinset.mp hq)
  have hunion : s.available.toFinset ∪ s.reserved = Finset.Ico start stop := by
    ext q
    simp only [Finset.mem_union, List.mem_toFinset, Finset.mem_Ico]
    exact ((hcov q).symm)
  have := Finset.card_union_of_disjoint hdisj'
  rw [hunion, Nat.card_Ico, List.toFinset_card_of_nodup hnd] at this
  omega

/-- C6: starting from the initial pool over the half-open range
`[start, stop)`, after any sequence of `request_port` and `release_port`
calls every port of the range lies in exactly one of the available queue
and the reserved set, `|available| + |reserved| = stop - start`, and the
reported `total_ports` of `get_port_status` equals `stop - start`. -/
theorem c6_port_pool_invariant (start stop : Nat) (ops : List PoolOp) :
    (∀ p, (start ≤ p ∧ p < stop) ↔
      (p ∈ (runPool start stop ops).available ∨
       p ∈ (runPool start stop ops).reserved)) ∧
    (∀ p, ¬(p ∈ (runPool start stop ops).available ∧
            p ∈ (runPool start stop ops).reserved)) ∧
    (runPool start stop ops).available.length +
      (runPool start stop ops).reserved.card = stop - start ∧
    (get_port_status start stop (runPool start stop ops)).total_ports =
      stop - start := by
  obtain ⟨hnd, hdisj, hcov⟩ := poolInv_run start stop ops
  have hcount := poolInv_count start stop _ ⟨hnd, hdisj, hcov⟩
  refine ⟨hcov, ?_, hcount, ?_⟩
  · rintro p ⟨h1, h2⟩
    exact hdisj p h1 h2
  · simpa [get_port_status] using hcount

/-- C7: `request_port` removes and returns the head of the available
queue and fails leaving the pool unchanged when the queue is empty;
`release_port` moves a reserved port to the tail of the available queue,
is a no-op on a non-reserved port, and is idempotent. -/
theorem c7_port_pool_ops (s : Pool) (p : Nat) :
    (∀ q rest, s.available = q :: rest →
      request_port s =
        .ok (q, { available := rest, reserved := insert q s.reserved })) ∧
    (s.available = [] →
      request_port s = .error "No available ports in pool" ∧
      stepPool s .request = s) ∧
    (p ∈ s.reserved →
      release_port p s =
        { available := s.available ++ [p], reserved := s.reserved.erase p }) ∧
    (p ∉ s.reserved → release_port p s = s) ∧
    release_port p (release_port p s) = release_port p s := by
  refine ⟨?_, ?_, ?_, ?_, ?_⟩
  · intro q rest h
    simp [request_port, h]
  · intro h
    constructor
    · simp [request_port, h]
    · simp [stepPool, request_port, h]
  · intro hp
    simp [release_port, hp]
  · intro hp
    simp [release_port, hp]
  · by_cases hp : p ∈ s.reserved
    · have h1 : release_port p s =
          { available := s.available ++ [p], reserved := s.reserved.erase p } := by
        simp [release_port, hp]
      rw [h1]
      simp [release_port, Finset.not_mem_erase]
    · simp [release_port, hp]

/-- Witness for C7 at a concrete pool: allocating from `⟨[1, 2], {3}⟩`
returns the head `1`, and releasing the reserved port `3` appends it to
the tail. -/
theorem c7_port_pool_ops_witness :
    request_port ⟨[1, 2], {3}⟩ =
      .ok (1, { available := [2], reserved := insert 1 {3} }) ∧
    release_port 3 ⟨[1, 2], {3}⟩ =
      { available := [1, 2, 3], reserved := Finset.erase {3} 3 } := by
  constructor
  · exact (c7_port_pool_ops ⟨[1, 2], {3}⟩ 3).1 1 [2] rfl
  · exact (c7_port_pool_ops ⟨[1, 2], {3}⟩ 3).2.2.1 (by decide)

/-- C8: a `/send` request naming a session id absent from the registry is
answered 404 with the broker state unchanged and no side effect (no
activity touch, no RPC, no command row, no metric row). -/
theorem c8_unknown_session_404 (session_id : String) (cmdName : Option String)
    (reply : Reply) (now execMs : Nat) (memSample : Option Nat)
    (inc exc : String) (failA failCmd failM : Bool) (st : ServerState)
    (h : st.registry.lookup session_id = none) :
    send session_id cmdName reply now execMs memSample inc exc
      failA failCmd failM st = (.error 404, st, []) := by
  simp [send, get_server_info, h]

/-- Witness for C8: an empty registry answers 404 and changes nothing. -/
theorem c8_unknown_session_404_witness :
    send "s" none ⟨true, none⟩ 1 1 none "" "" false false false
      ⟨[], ⟨[], ∅⟩, ⟨[], [], [], []⟩, []⟩ =
      (.error 404, ⟨[], ⟨[], ∅⟩, ⟨[], [], [], []⟩, []⟩, []) :=
  c8_unknown_session_404 "s" none ⟨true, none⟩ 1 1 none "" "" false false false
    ⟨[], ⟨[], ∅⟩, ⟨[], [], [], []⟩, []⟩ rfl

/-- C9: `get_client_ip` returns the stripped first comma-separated
element of a present `X-Forwarded-For` header, else the direct peer
address, else `"unknown"`; in particular the header
`"10.0.0.1, 10.0.0.2"` yields `"10.0.0.1"`. -/
theorem c9_client_ip (fwd hd host : String) (client : Option String) :
    (∀ rest, pySplit ',' fwd = hd :: rest →
      get_client_ip (some fwd) client = pyStrip hd) ∧
    get_client_ip none (some host) = host ∧
    get_client_ip none none = "unknown" ∧
    get_client_ip (some "10.0.0.1, 10.0.0.2") client = "10.0.0.1" := by
  refine ⟨?_, rfl, rfl, ?_⟩
  · intro rest h
    simp [get_client_ip, h]
  · show pyStrip ((pySplit ',' "10.0.0.1, 10.0.0.2").headD "") = "10.0.0.1"
    decide

/-- Witness for C9 at the spec's scenario header. -/
theorem c9_client_ip_witness :
    get_client_ip (some "10.0.0.1, 10.0.0.2") none = pyStrip "10.0.0.1" :=
  (c9_client_ip "10.0.0.1, 10.0.0.2" "10.0.0.1" "" none).1 [" 10.0.0.2"]
    (by decide)

/-- C10: in the worker loop, a mapping whose `command` value is an
unrecognized name is answered with a `success = false` error envelope,
while a mapping lacking the `command` key raises an uncaught `KeyError`
(no reply is sent), and a non-mapping request raises an uncaught
`ValueError` instead of receiving an error envelope. -/
theorem c10_worker_loop
    (engine : String → List (String × JVal) → Except String JVal)
    (fields : List (String × JVal)) (s t : String) (n : Int) (b : Bool)
    (xs : List JVal) :
    (∀ rest, popField "command" fields = some (.str s, rest) →
      workerCommands.contains s = false →
      workerStep engine (.obj fields) =
        .reply (.obj [("success", .bool false),
          ("error", .str ("API does not recognize command " ++ s ++ "."))])) ∧
    (popField "command" fields = none →
      workerStep engine (.obj fields) = .raised "KeyError: command") ∧
    workerStep engine .null =
      .raised "ValueError: API returned a non-dictionary value" ∧
    workerStep engine (.bool b) =
      .raised "ValueError: API returned a non-dictionary value" ∧
    workerStep engine (.num n) =
      .raised "ValueError: API returned a non-dictionary value" ∧
    workerStep engine (.str t) =
      .raised "ValueError: API returned a non-dictionary value" ∧
    workerStep engine (.arr xs) =
      .raised "ValueError: API returned a non-dictionary value" := by
  refine ⟨?_, ?_, rfl, rfl, rfl, rfl, rfl⟩
  · intro rest hpop hunk
    simp at hunk
    simp [workerStep, hpop, hunk]
  · intro hpop
    simp [workerStep, hpop]

/-- Witness for C10: `{"command": "frobnicate"}` gets the error envelope;
`{"x": null}` raises `KeyError`. -/
theorem c10_worker_loop_witness :
    workerStep (fun _ _ => .ok .null) (.obj [("command", .str "frobnicate")]) =
      .reply (.obj [("success", .bool false),
        ("error", .str ("API does not recognize command " ++ "frobnicate" ++ "."))]) ∧
    workerStep (fun _ _ => .ok .null) (.obj [("x", .null)]) =
      .raised "KeyError: command" := by
  constructor
  · exact (c10_worker_loop (fun _ _ => .ok .null)
      [("command", .str "frobnicate")] "frobnicate" "" 0 false []).1 [] rfl (by decide)
  · exact (c10_worker_loop (fun _ _ => .ok .null)
      [("x", .null)] "" "" 0 false []).2.1 rfl

/-- C5: if the parsed include list is non-empty a command is persisted
iff its name is a member of the include list, otherwise iff its name is
not in the exclude list; a persisted command appends exactly one
`session_commands` row and a filtered command appends none. -/
theorem c5_command_filter (inc exc command_name session_id : String)
    (fail : Bool) (ts : Nat) (succ : Bool) (ms : Option Nat)
    (em : Option String) (st : Store) :
    (parseCmdList inc ≠ [] →
      (should_log_command inc exc command_name = true ↔
        command_name ∈ parseCmdList inc)) ∧
    (parseCmdList inc = [] →
      (should_log_command inc exc command_name = true ↔
        command_name ∉ parseCmdList exc)) ∧
    (should_log_command inc exc command_name = true →
      (log_command_execution false inc exc session_id ts command_name succ
          ms em st).1.session_commands =
        st.session_commands ++
          [{ session_id := session_id, timestamp := ts,
             command_name := command_name,
             success := if succ then 1 else 0,
             execution_time_ms := ms, error_message := em }]) ∧
    (should_log_command inc exc command_name = false →
      (log_command_execution fail inc exc session_id ts command_name succ
          ms em st).1 = st) := by
  refine ⟨?_, ?_, ?_, ?_⟩
  · intro h
    simp [should_log_command, h]
  · intro h
    simp [should_log_command, h]
  · intro h
    simp [log_command_execution, h]
  · intro h
    simp [log_command_execution, h]

/-- Witness for C5 with `include = "a, b"`, `exclude = "c"`: the filter
admits `"a"` and one row is appended to an empty `session_commands`. -/
theorem c5_command_filter_witness :
    (should_log_command "a, b" "c" "a" = true ↔ "a" ∈ parseCmdList "a, b") ∧
    (log_command_execution false "a, b" "c" "s" 3 "a" true (some 2) none
        ⟨[], [], [], []⟩).1.session_commands =
      [{ session_id := "s", timestamp := 3, command_name := "a", success := 1,
         execution_time_ms := some 2, error_message := none }] := by
  constructor
  · exact (c5_command_filter "a, b" "c" "a" "s" false 3 true (some 2) none
      ⟨[], [], [], []⟩).1 (by decide)
  · have h := (c5_command_filter "a, b" "c" "a" "s" false 3 true (some 2) none
      ⟨[], [], [], []⟩).2.2.1 (by decide)
    simpa using h

theorem update_last_activity_registry (session_id : String) (now : Nat)
    (fail : Bool) (st : ServerState) :
    (update_last_activity session_id now fail st).registry =
      match st.registry.lookup session_id with
      | none => st.registry
      | some _ =>
        regUpdate session_id (fun i => { i with last_activity := now })
          st.registry := by
  cases h : st.registry.lookup session_id <;>
    simp [update_last_activity, withStore, h]

theorem gcmu_registry (session_id : String) (memSample : Option Nat)
    (now : Nat) (failA failM : Bool) (st : ServerState) :
    (get_current_memory_usage session_id memSample now failA failM
        st).2.registry =
      match st.registry.lookup session_id with
      | none => st.registry
      | some info =>
        match info.process with
        | none => st.registry
        | some _ =>
          match memSample with
          | none => st.registry
          | some mem =>
            let reg1 := regUpdate session_id
              (fun i => { i with mem_used := mem }) st.registry
            match reg1.lookup session_id with
            | none => reg1
            | some _ =>
              regUpdate session_id (fun i => { i with last_activity := now })
                reg1 := by
  cases h : st.registry.lookup session_id with
  | none => simp [get_current_memory_usage, h]
  | some info =>
    cases hp : info.process with
    | none => simp [get_current_memory_usage, h, hp]
    | some b =>
      cases memSample with
      | none => simp [get_current_memory_usage, h, hp]
      | some mem =>
        simp only [get_current_memory_usage, h, hp, withStore]
        rw [update_last_activity_registry]

theorem send_response (session_id : String) (cmdName : Option String)
    (reply : Reply) (now execMs : Nat) (memSample : Option Nat)
    (inc exc : String) (failA failCmd failM : Bool) (st : ServerState) :
    (send session_id cmdName reply now execMs memSample inc exc
        failA failCmd failM st).1 =
      match st.registry.lookup session_id with
      | none => .error 404
      | some _ => .ok reply := by
  cases h : st.registry.lookup session_id <;>
    simp [send, get_server_info, h]

theorem send_registry (session_id : String) (cmdName : Option String)
    (reply : Reply) (now execMs : Nat) (memSample : Option Nat)
    (inc exc : String) (failA failCmd failM : Bool) (st : ServerState) :
    (send session_id cmdName reply now execMs memSample inc exc
        failA failCmd failM st).2.1.registry =
      match st.registry.lookup session_id with
      | none => st.registry
      | some _ =>
        (get_current_memory_usage session_id memSample now failA failM
          (update_last_activity session_id now failA st)).2.registry := by
  cases h : st.registry.lookup session_id with
  | none => simp [send, get_server_info, h]
  | some info =>
    simp only [send, get_server_info, h, Option.map_some']
    rw [gcmu_registry, gcmu_registry]
    simp only [withStore]

/-- C4: every store operation swallows a storage-layer exception: it
returns normally with the store unchanged and the failure logged, and in
the `/send` pipeline the HTTP outcome and the registry do not depend on
the store oracle at all. -/
theorem c4_store_errors_swallowed (session_id first_name last_name email
      reason command_name inc exc : String) (t port mem : Nat)
    (client_ip user_agent error_message : Option String) (succ : Bool)
    (ms : Option Nat) (st : Store) (cmdName : Option String) (reply : Reply)
    (now execMs : Nat) (memSample : Option Nat)
    (failA failCmd failM failA' failCmd' failM' : Bool) (ss : ServerState) :
    (log_session_created true session_id t port client_ip user_agent st).1 = st ∧
    (log_session_created true session_id t port client_ip user_agent st).2 =
      ["Failed to log session creation"] ∧
    (log_session_destroyed true session_id t reason st).1 = st ∧
    (log_session_destroyed true session_id t reason st).2 =
      ["Failed to log session destruction"] ∧
    (log_session_activity true session_id t st).1 = st ∧
    (log_session_activity true session_id t st).2 =
      ["Failed to log session activity"] ∧
    (log_session_metric true session_id t mem st).1 = st ∧
    (log_session_metric true session_id t mem st).2 =
      ["Failed to log session metric"] ∧
    (log_command_execution true inc exc session_id t command_name succ ms
        error_message st).1 = st ∧
    (log_user_info_update true session_id first_name last_name email t st).1 = st ∧
    (log_user_info_update true session_id first_name last_name email t st).2 =
      ["Failed to log user info update"] ∧
    (send session_id cmdName reply now execMs memSample inc exc
        failA failCmd failM ss).1 =
      (send session_id cmdName reply now execMs memSample inc exc
        failA' failCmd' failM' ss).1 ∧
    (send session_id cmdName reply now execMs memSample inc exc
        failA failCmd failM ss).2.1.registry =
      (send session_id cmdName reply now execMs memSample inc exc
        failA' failCmd' failM' ss).2.1.registry := by
  refine ⟨rfl, rfl, rfl, rfl, rfl, rfl, rfl, rfl, ?_, rfl, rfl, ?_, ?_⟩
  · by_cases h : should_log_command inc exc command_name <;>
      simp [log_command_execution, h]
  · rw [send_response, send_response]
  · rw [send_registry, send_registry]
    cases h : ss.registry.lookup session_id with
    | none => rfl
    | some info =>
      rw [gcmu_registry, gcmu_registry,
        update_last_activity_registry, update_last_activity_registry]

/-- C3: when the readiness probe fails, `launch_phoebe_worker` raises and
rolls back completely: registry, store and error log are untouched, the
allocated port is back in the available queue, the reserved set is
restored, and the second `release_port` of the rollback path is a no-op
on the pool produced by the first. -/
theorem c3_spawn_rollback (session_id : String) (now : Nat)
    (client_ip user_agent : Option String) (fail : Bool) (st : ServerState)
    (p : Nat) (rest : List Nat)
    (hav : st.pool.available = p :: rest)
    (hres : p ∉ st.pool.reserved)
    (hfresh : st.registry.lookup session_id = none) :
    (launch_phoebe_worker false fail session_id now client_ip user_agent
        st).2 = .error "Worker failed to start within timeout" ∧
    (launch_phoebe_worker false fail session_id now client_ip user_agent
        st).1.registry = st.registry ∧
    (launch_phoebe_worker false fail session_id now client_ip user_agent
        st).1.store = st.store ∧
    (launch_phoebe_worker false fail session_id now client_ip user_agent
        st).1.errlog = st.errlog ∧
    (launch_phoebe_worker false fail session_id now client_ip user_agent
        st).1.registry.lookup session_id = none ∧
    (launch_phoebe_worker false fail session_id now client_ip user_agent
        st).1.pool.reserved = st.pool.reserved ∧
    p ∈ (launch_phoebe_worker false fail session_id now client_ip user_agent
        st).1.pool.available ∧
    (launch_phoebe_worker false fail session_id now client_ip user_agent
        st).1.pool.available.Perm st.pool.available ∧
    release_port p (release_port p
        { available := rest, reserved := insert p st.pool.reserved }) =
      release_port p { available := rest, reserved := insert p st.pool.reserved } := by
  have hreq : request_port st.pool =
      .ok (p, { available := rest, reserved := insert p st.pool.reserved }) := by
    simp [request_port, hav]
  have hrel1 : release_port p { available := rest, reserved := insert p st.pool.reserved } =
      { available := rest ++ [p], reserved := st.pool.reserved } := by
    simp [release_port, Finset.erase_insert hres]
  have hrel2 : release_port p { available := rest ++ [p], reserved := st.pool.reserved } =
      { available := rest ++ [p], reserved := st.pool.reserved } := by
    simp [release_port, hres]
  have hr : launch_phoebe_worker false fail session_id now client_ip user_agent st =
      ({ st with pool := { available := rest ++ [p], reserved := st.pool.reserved } },
        .error "Worker failed to start within timeout") := by
    simp [launch_phoebe_worker, hreq, hrel1, hrel2]
  rw [hr]
  refine ⟨rfl, rfl, rfl, rfl, hfresh, rfl, ?_, ?_, ?_⟩
  · simp
  · rw [hav]
    exact List.perm_append_singleton p rest
  · rw [hrel1, hrel2]

/-- Witness for C3 on a one-port pool with an empty registry: the probe
failure surfaces the error and port 5 is back in the queue. -/
theorem c3_spawn_rollback_witness :
    (launch_phoebe_worker false false "s" 1 none none
        ⟨[], ⟨[5], ∅⟩, ⟨[], [], [], []⟩, []⟩).2 =
      .error "Worker failed to start within timeout" ∧
    5 ∈ (launch_phoebe_worker false false "s" 1 none none
        ⟨[], ⟨[5], ∅⟩, ⟨[], [], [], []⟩, []⟩).1.pool.available ∧
    (launch_phoebe_worker false false "s" 1 none none
        ⟨[], ⟨[5], ∅⟩, ⟨[], [], [], []⟩, []⟩).1.registry = [] := by
  have h := c3_spawn_rollback "s" 1 none none false
    ⟨[], ⟨[5], ∅⟩, ⟨[], [], [], []⟩, []⟩ 5 [] rfl (by decide) rfl
  exact ⟨h.1, h.2.2.2.2.2.2.1, h.2.1⟩

/-- Counterexample to C2 as stated: for a registered session with a live
worker, `shutdown_server` emits the full trace
`[terminate, portRelease, destroyed, registryRemove]`, and the registry
removal does NOT precede the start of worker termination. -/
theorem c2_counterexample :
    (shutdown_server "s" "manual" 2 false
        ⟨[("s", ⟨"s", 1, 1, 0, 40000, none, none, none, "Not logged in",
            some true⟩)],
         ⟨[], {40000}⟩,
         ⟨[⟨"s", 1, none, 1, 40000, none, none, none, "active"⟩], [], [], []⟩,
         []⟩).2.2 =
      [Ev.terminate "s", Ev.portRelease 40000, Ev.destroyed "s" "manual",
       Ev.registryRemove "s"] ∧
    ¬ ((shutdown_server "s" "manual" 2 false
        ⟨[("s", ⟨"s", 1, 1, 0, 40000, none, none, none, "Not logged in",
            some true⟩)],
         ⟨[], {40000}⟩,
         ⟨[⟨"s", 1, none, 1, 40000, none, none, none, "active"⟩], [], [], []⟩,
         []⟩).2.2.indexOf (Ev.registryRemove "s") <
      (shutdown_server "s" "manual" 2 false
        ⟨[("s", ⟨"s", 1, 1, 0, 40000, none, none, none, "Not logged in",
            some true⟩)],
         ⟨[], {40000}⟩,
         ⟨[⟨"s", 1, none, 1, 40000, none, none, none, "active"⟩], [], [], []⟩,
         []⟩).2.2.indexOf (Ev.terminate "s")) := by
  decide

/-- C2 (amended): for every registered session, the registry-entry removal
of `shutdown_server` is its FINAL step: the emitted trace ends with
`registryRemove`, preceded by the worker-termination event (when the
process was running), the port release (when the port is non-zero) and
the `destroyed` store update; the session thus stays routable while the
worker is torn down. -/
theorem c2_amended_registry_removal_last (session_id reason : String)
    (now : Nat) (fail : Bool) (st : ServerState) (info : SessionInfo)
    (h : st.registry.lookup session_id = some info) :
    ∃ pre, (shutdown_server session_id reason now fail st).2.2 =
        pre ++ [Ev.registryRemove session_id] ∧
      Ev.registryRemove session_id ∉ pre ∧
      Ev.destroyed session_id reason ∈ pre ∧
      (info.process = some true → Ev.terminate session_id ∈ pre) ∧
      (info.port ≠ 0 → Ev.portRelease info.port ∈ pre) := by
  by_cases hport : info.port = 0
  · cases hproc : info.process with
    | none =>
      refine ⟨[Ev.destroyed session_id reason], ?_, by simp, by simp, ?_, ?_⟩
      · simp [shutdown_server, h, hproc, hport]
      · exact fun hc => Option.noConfusion hc
      · exact fun hc => absurd hport hc
    | some b =>
      cases b with
      | false =>
        refine ⟨[Ev.destroyed session_id reason], ?_, by simp, by simp, ?_, ?_⟩
        · simp [shutdown_server, h, hproc, hport]
        · exact fun hc => by simp at hc
        · exact fun hc => absurd hport hc
      | true =>
        refine ⟨[Ev.terminate session_id, Ev.destroyed session_id reason],
          ?_, by simp, by simp, fun _ => by simp, ?_⟩
        · simp [shutdown_server, h, hproc, hport]
        · exact fun hc => absurd hport hc
  · cases hproc : info.process with
    | none =>
      refine ⟨[Ev.portRelease info.port, Ev.destroyed session_id reason],
        ?_, by simp, by simp, ?_, fun _ => by simp⟩
      · simp [shutdown_server, h, hproc, hport]
      · exact fun hc => Option.noConfusion hc
    | some b =>
      cases b with
      | false =>
        refine ⟨[Ev.portRelease info.port, Ev.destroyed session_id reason],
          ?_, by simp, by simp, ?_, fun _ => by simp⟩
        · simp [shutdown_server, h, hproc, hport]
        · exact fun hc => by simp at hc
      | true =>
        refine ⟨[Ev.terminate session_id, Ev.portRelease info.port,
          Ev.destroyed session_id reason],
          ?_, by simp, by simp, fun _ => by simp, fun _ => by simp⟩
        simp [shutdown_server, h, hproc, hport]

/-- Witness for the amended C2 at a concrete live session. -/
theorem c2_amended_registry_removal_last_witness :
    ∃ pre, (shutdown_server "s2" "manual" 2 false
        ⟨[("s2", ⟨"s2", 1, 1, 0, 41000, none, none, none, "Not logged in",
            some true⟩)],
         ⟨[], {41000}⟩, ⟨[], [], [], []⟩, []⟩).2.2 =
        pre ++ [Ev.registryRemove "s2"] ∧
      Ev.registryRemove "s2" ∉ pre ∧
      Ev.destroyed "s2" "manual" ∈ pre ∧
      ((⟨"s2", 1, 1, 0, 41000, none, none, none, "Not logged in",
          some true⟩ : SessionInfo).process = some true →
        Ev.terminate "s2" ∈ pre) ∧
      ((⟨"s2", 1, 1, 0, 41000, none, none, none, "Not logged in",
          some true⟩ : SessionInfo).port ≠ 0 →
        Ev.portRelease (⟨"s2", 1, 1, 0, 41000, none, none, none,
          "Not logged in", some true⟩ : SessionInfo).port ∈ pre) :=
  c2_amended_registry_removal_last "s2" "manual" 2 false
    ⟨[("s2", ⟨"s2", 1, 1, 0, 41000, none, none, none, "Not logged in",
        some true⟩)],
     ⟨[], {41000}⟩, ⟨[], [], [], []⟩, []⟩
    ⟨"s2", 1, 1, 0, 41000, none, none, none, "Not logged in", some true⟩ rfl

/-- C1 at the failing input: a registry holding one session whose worker
process is reported not running.  `list_sessions` does evict it, but the
end protocol runs with the default reason: the `destroyed` update records
`termination_reason = "manual"`, and no `dead_process` event is emitted. -/
theorem c1_dead_session_evicted_with_manual_reason :
    (list_sessions 2 false
        ⟨[("s", ⟨"s", 1, 1, 0, 40000, none, none, none, "Not logged in",
            some false⟩)],
         ⟨[], {40000}⟩,
         ⟨[⟨"s", 1, none, 1, 40000, none, none, none, "active"⟩], [], [], []⟩,
         []⟩).2.1.registry = [] ∧
    ((list_sessions 2 false
        ⟨[("s", ⟨"s", 1, 1, 0, 40000, none, none, none, "Not logged in",
            some false⟩)],
         ⟨[], {40000}⟩,
         ⟨[⟨"s", 1, none, 1, 40000, none, none, none, "active"⟩], [], [], []⟩,
         []⟩).2.1.store.sessions.map (fun r => r.termination_reason)) =
      [some "manual"] ∧
    Ev.destroyed "s" "manual" ∈ (list_sessions 2 false
        ⟨[("s", ⟨"s", 1, 1, 0, 40000, none, none, none, "Not logged in",
            some false⟩)],
         ⟨[], {40000}⟩,
         ⟨[⟨"s", 1, none, 1, 40000, none, none, none, "active"⟩], [], [], []⟩,
         []⟩).2.2 ∧
    Ev.destroyed "s" "dead_process" ∉ (list_sessions 2 false
        ⟨[("s", ⟨"s", 1, 1, 0, 40000, none, none, none, "Not logged in",
            some false⟩)],
         ⟨[], {40000}⟩,
         ⟨[⟨"s", 1, none, 1, 40000, none, none, none, "active"⟩], [], [], []⟩,
         []⟩).2.2 := by
  decide
